import Mathlib

/-!
Shallow embedding of the imweb immediate-mode canvas UI library.

Coordinates and sizes are JavaScript numbers; we model them as rationals so
that the slider's division is exact. Drawing calls are recorded as a list of
draw operations instead of mutating a canvas. Mutable closure state (the
slider's `value`, the layout closures' running offsets) is threaded
explicitly: each render returns the updated widget alongside its output.
-/

/-- Module-level pointer state from core/input.js: `mouseX`, `mouseY`,
`isMouseClicked`, written by the mousemove/mousedown/mouseup handlers and
read during render via `getMousePosition` and `isClicked`. -/
structure PointerState where
  mouseX : ℚ
  mouseY : ℚ
  isMouseClicked : Bool
deriving DecidableEq

/-- A drawing call issued to the canvas context: `fillRect` becomes `rect`,
`fillText` becomes `text`. -/
inductive DrawOp where
  | rect (x y w h : ℚ) (color : String)
  | text (s : String) (x y : ℚ) (font color : String)
deriving DecidableEq

/-- The closure captured by `createButton(label, x, y, width, height, onClick)`
from components/button.js. The callback's body is irrelevant to the claims,
so its presence is recorded as an `Option Unit`. -/
structure Button where
  label : String
  x : ℚ
  y : ℚ
  width : ℚ
  height : ℚ
  onClick : Option Unit
deriving DecidableEq

/-- The hover test inside `createButton`'s render:
`mouseX > x && mouseX < x + width && mouseY > y && mouseY < y + height`. -/
def buttonIsHovered (b : Button) (ps : PointerState) : Bool :=
  decide (ps.mouseX > b.x) && decide (ps.mouseX < b.x + b.width) &&
  decide (ps.mouseY > b.y) && decide (ps.mouseY < b.y + b.height)

/-- `createButton`'s `render(ctx)`: draws the rect and label, then runs
`if (isHovered && isClicked() && onClick) onClick()`. Returns the draw list
and whether `onClick` was invoked on this tick. -/
def buttonRender (b : Button) (ps : PointerState) : List DrawOp × Bool :=
  let isHovered := buttonIsHovered b ps
  ([DrawOp.rect b.x b.y b.width b.height (if isHovered then "#555" else "#333"),
    DrawOp.text b.label (b.x + 10) (b.y + 25) "16px Arial" "#fff"],
   isHovered && ps.isMouseClicked && b.onClick.isSome)

/-- `createButton`'s render is declared as `render(ctx)`: when a layout calls
`child.render(ctx, xOffset, padding)`, the extra origin arguments are simply
discarded by JavaScript, so the button still uses its captured `x, y`. -/
def buttonRenderAt (b : Button) (_originX _originY : ℚ) (ps : PointerState) :
    List DrawOp × Bool :=
  buttonRender b ps

/-- The frame driver calls `render` once per tick; this counts on how many of
the given ticks the button's `onClick` branch fired. The button closure holds
no mutable state, so each tick depends only on that tick's pointer state. -/
def buttonClicksOverTicks (b : Button) (ticks : List PointerState) : Nat :=
  (ticks.filter (fun ps => (buttonRender b ps).2)).length

/-- The closure captured by `createSlider(min, max, value, x, y, width,
height)` from components/slider.js; `value` is the one mutable variable. -/
structure Slider where
  min : ℚ
  max : ℚ
  value : ℚ
  x : ℚ
  y : ℚ
  width : ℚ
  height : ℚ
deriving DecidableEq

/-- `createSlider` returns the widget object directly: there is no
validation of any argument. -/
def createSlider (min max value x y width height : ℚ) : Slider :=
  ⟨min, max, value, x, y, width, height⟩

/-- The drag condition inside the slider's render:
`mouseX > x && mouseX < x + width && mouseY > y && mouseY < y + height
&& isClicked()`. -/
def sliderHit (s : Slider) (ps : PointerState) : Bool :=
  decide (ps.mouseX > s.x) && decide (ps.mouseX < s.x + s.width) &&
  decide (ps.mouseY > s.y) && decide (ps.mouseY < s.y + s.height) &&
  ps.isMouseClicked

/-- The slider's `render(ctx)`: draws the track and handle from the current
`value`, then, when the drag condition holds, overwrites
`value = min + ((mouseX - x) / width) * (max - min)`. Returns the draw list
and the slider with its updated closure state. -/
def sliderRender (s : Slider) (ps : PointerState) : List DrawOp × Slider :=
  let sliderPos := ((s.value - s.min) / (s.max - s.min)) * s.width
  ([DrawOp.rect s.x s.y s.width 10 "#aaa",
    DrawOp.rect (s.x + sliderPos - 5) (s.y - 5) 10 20 "#333"],
   if sliderHit s ps then
     Slider.mk s.min s.max (s.min + ((ps.mouseX - s.x) / s.width) * (s.max - s.min))
       s.x s.y s.width s.height
   else s)

/-- A layout child as `flexRow`/`flexColumn` see it: only `width` and
`height` are read. -/
structure Child where
  width : ℚ
  height : ℚ
deriving DecidableEq

/-- The closure created by `flexRow(children, {spacing, padding})` from
layout/layout.js. `xOffset` is a `let` in the surrounding closure, NOT a
local of `render`, so it survives from one render call to the next. -/
structure FlexRowUI where
  children : List Child
  spacing : ℚ
  padding : ℚ
  xOffset : ℚ
deriving DecidableEq

/-- `flexRow(children, {spacing, padding})`: initializes `xOffset = padding`
once, at construction time. -/
def flexRow (children : List Child) (spacing padding : ℚ) : FlexRowUI :=
  ⟨children, spacing, padding, padding⟩

/-- One step of the row traversal: the child is rendered at
`(xOffset, padding)` and then `xOffset += child.width + spacing`. -/
def flexRowStep (spacing padding : ℚ) (acc : List (ℚ × ℚ) × ℚ) (c : Child) :
    List (ℚ × ℚ) × ℚ :=
  (acc.1 ++ [(acc.2, padding)], acc.2 + c.width + spacing)

/-- `flexRow`'s `render(ctx)`: visits the children in order, passing each the
origin of the moment, and leaves the advanced `xOffset` in the closure.
Returns the origins handed to the children and the updated closure. -/
def FlexRowUI.render (ui : FlexRowUI) : List (ℚ × ℚ) × FlexRowUI :=
  let r := ui.children.foldl (flexRowStep ui.spacing ui.padding) ([], ui.xOffset)
  (r.1, ⟨ui.children, ui.spacing, ui.padding, r.2⟩)

/-- The closure created by `flexColumn(children, {spacing, padding})`;
`yOffset` likewise lives in the closure, outside `render`. -/
structure FlexColumnUI where
  children : List Child
  spacing : ℚ
  padding : ℚ
  yOffset : ℚ
deriving DecidableEq

/-- `flexColumn(children, {spacing, padding})`: initializes
`yOffset = padding` once, at construction time. -/
def flexColumn (children : List Child) (spacing padding : ℚ) : FlexColumnUI :=
  ⟨children, spacing, padding, padding⟩

/-- One step of the column traversal: the child is rendered at
`(padding, yOffset)` and then `yOffset += child.height + spacing`. -/
def flexColumnStep (spacing padding : ℚ) (acc : List (ℚ × ℚ) × ℚ) (c : Child) :
    List (ℚ × ℚ) × ℚ :=
  (acc.1 ++ [(padding, acc.2)], acc.2 + c.height + spacing)

/-- `flexColumn`'s `render(ctx)`, analogous to the row case. -/
def FlexColumnUI.render (ui : FlexColumnUI) : List (ℚ × ℚ) × FlexColumnUI :=
  let r := ui.children.foldl (flexColumnStep ui.spacing ui.padding) ([], ui.yOffset)
  (r.1, ⟨ui.children, ui.spacing, ui.padding, r.2⟩)

/-- The closure captured by `highLevelButton(label, width, height, onClick)`
from components/highLevelButton.js: it constructs the inner
`createButton(label, 0, 0, width, height, onClick)` once. -/
structure HLButton where
  label : String
  width : ℚ
  height : ℚ
  onClick : Option Unit
deriving DecidableEq

/-- `highLevelButton(label, width, height, onClick)`. -/
def highLevelButton (label : String) (width height : ℚ) (onClick : Option Unit) :
    HLButton :=
  ⟨label, width, height, onClick⟩

/-- `highLevelButton`'s `render(ctx, x, y)`: the `x, y` parameters are never
read. It builds a fresh `flexRow([button], { padding: 5 })` on every call and
renders it, so that row's closure starts from `xOffset = 5` each time and
hands the inner button the origin `(5, 5)` — which `createButton`'s
`render(ctx)` discards. -/
def hlButtonRender (hb : HLButton) (_x _y : ℚ) (ps : PointerState) :
    List DrawOp × Bool :=
  buttonRenderAt ⟨hb.label, 0, 0, hb.width, hb.height, hb.onClick⟩ 5 5 ps

/-- Unfolding the hover test into the four strict comparisons: the hit region
is the OPEN rectangle on all four sides. -/
lemma buttonIsHovered_iff (b : Button) (ps : PointerState) :
    buttonIsHovered b ps = true ↔
      b.x < ps.mouseX ∧ ps.mouseX < b.x + b.width ∧
      b.y < ps.mouseY ∧ ps.mouseY < b.y + b.height := by
  simp [buttonIsHovered, and_assoc]

/-- The slider render leaves every field except `value` unchanged, and the
new `value` is the drag formula when the drag condition holds. -/
lemma sliderRender_snd (s : Slider) (ps : PointerState) :
    (sliderRender s ps).2 =
      if sliderHit s ps then
        Slider.mk s.min s.max
          (s.min + ((ps.mouseX - s.x) / s.width) * (s.max - s.min))
          s.x s.y s.width s.height
      else s := by
  cases h : sliderHit s ps <;> simp [sliderRender, h]

/-- The drag condition does not read `value`, so it is stable under the
value overwrite. -/
lemma sliderHit_update (s : Slider) (v : ℚ) (ps : PointerState) :
    sliderHit (Slider.mk s.min s.max v s.x s.y s.width s.height) ps =
      sliderHit s ps := rfl

/-- C1 (code evaluation at the failing input): the layout closures keep their
running offset across render calls. A `flexRow` with one child of width 150,
`spacing = 20`, `padding = 20` hands the child origin `(20, 20)` on the first
render but `(190, 20)` on the second, because `xOffset` is never re-initial-
ized; `flexColumn` drifts the same way on the cross axis. -/
theorem c1_layout_offset_persists_eval :
    ((flexRow [⟨150, 50⟩] 20 20).render).1 = [(20, 20)] ∧
    (((flexRow [⟨150, 50⟩] 20 20).render).2.render).1 = [(190, 20)] ∧
    ((flexColumn [⟨50, 150⟩] 20 20).render).1 = [(20, 20)] ∧
    (((flexColumn [⟨50, 150⟩] 20 20).render).2.render).1 = [(20, 190)] := by
  norm_num [FlexRowUI.render, FlexColumnUI.render, flexRow, flexColumn,
    flexRowStep, flexColumnStep, List.foldl]

/-- C2 (counterexample): the claim puts the left boundary `pointerX == x`
inside the hover region, but for a 10×10 button at the origin a pointer at
`(0, 5)` does not hover — the test is `mouseX > x`, strict. -/
theorem c2_left_boundary_does_not_hover :
    buttonIsHovered ⟨"b", 0, 0, 10, 10, none⟩ ⟨0, 5, false⟩ = false := by
  decide

/-- C2 (amended): hover holds exactly for pointer positions strictly inside
the OPEN rectangle `(x, x+width) × (y, y+height)` — all four boundaries
excluded — and a button with `width = 0` or `height = 0` never hovers. -/
theorem c2_hover_open_rectangle (b : Button) (ps : PointerState) :
    (buttonIsHovered b ps = true ↔
      b.x < ps.mouseX ∧ ps.mouseX < b.x + b.width ∧
      b.y < ps.mouseY ∧ ps.mouseY < b.y + b.height) ∧
    (b.width = 0 ∨ b.height = 0 → buttonIsHovered b ps = false) := by
  refine ⟨buttonIsHovered_iff b ps, fun hzero => ?_⟩
  rw [Bool.eq_false_iff]
  intro hcontra
  rcases (buttonIsHovered_iff b ps).mp hcontra with ⟨h1, h2, h3, h4⟩
  rcases hzero with hw | hh
  · rw [hw, add_zero] at h2
    exact absurd (h1.trans h2) (lt_irrefl _)
  · rw [hh, add_zero] at h4
    exact absurd (h3.trans h4) (lt_irrefl _)

/-- C2 (witness): a zero-width button at the origin does not hover even with
the pointer on its vertical line. -/
theorem c2_hover_open_rectangle_witness :
    buttonIsHovered ⟨"b", 0, 0, 0, 10, none⟩ ⟨1, 5, false⟩ = false :=
  (c2_hover_open_rectangle ⟨"b", 0, 0, 0, 10, none⟩ ⟨1, 5, false⟩).2 (Or.inl rfl)

/-- C5 (counterexample): `createSlider(100, 0, 50, 0, 0, -5, -5)` has
`max <= min` and negative width and height, yet construction succeeds and
returns a slider capturing the arguments unchanged — nothing is rejected. -/
theorem c5_invalid_range_still_constructs :
    createSlider 100 0 50 0 0 (-5) (-5) =
      Slider.mk 100 0 50 0 0 (-5) (-5) := rfl

/-- C5 (amended): `createSlider` performs no validation at all: even when
`max <= min` or the width or height is negative, it returns a Slider whose
fields are exactly the given arguments, neither rejecting nor clamping. -/
theorem c5_no_construction_validation (mn mx v px py w ht : ℚ)
    (_hbad : mx ≤ mn ∨ w < 0 ∨ ht < 0) :
    createSlider mn mx v px py w ht = Slider.mk mn mx v px py w ht := rfl

/-- C5 (witness): instantiated at `max = 0 <= 100 = min`. -/
theorem c5_no_construction_validation_witness :
    createSlider 100 0 50 0 0 200 10 = Slider.mk 100 0 50 0 0 200 10 :=
  c5_no_construction_validation 100 0 50 0 0 200 10 (Or.inl (by norm_num))

/-- C6: on the very first render of `flexRow` over two children of width 150
with `spacing = 20`, `padding = 20`, child 0 receives origin `(20, 20)` and
child 1 receives `(190, 20)`, in insertion order, cross axis at `padding`. -/
theorem c6_flexRow_first_render_offsets :
    ((flexRow [⟨150, 50⟩, ⟨150, 50⟩] 20 20).render).1 = [(20, 20), (190, 20)] := by
  norm_num [FlexRowUI.render, flexRow, flexRowStep, List.foldl]

/-- C3 (counterexample): with the spec's slider (`min=0, max=100, x=50,
y=150, width=200`) constructed at `value = 75`, a render with the pointer
down at `(50, 155)` leaves `value = 75`: `mouseX > x` is strict, so the
pointer at `pointerX = 50` misses the drag region and `value` is NOT set
to 0 as the claim states. -/
theorem c3_pointer_at_left_edge_no_update :
    (sliderRender (createSlider 0 100 75 50 150 200 10) ⟨50, 155, true⟩).2.value
      = 75 ∧ (75 : ℚ) ≠ 0 := by
  constructor
  · have hmiss : sliderHit (createSlider 0 100 75 50 150 200 10) ⟨50, 155, true⟩
        = false := by
      norm_num [sliderHit, createSlider]
    rw [sliderRender_snd, hmiss]
    norm_num [createSlider]
  · norm_num

/-- C3 (amended): for the slider `min=0, max=100, x=50, y=150, width=200`
with the pointer down inside the vertical band, a render at `pointerX = 150`
sets `value` to 50; but at `pointerX = 50` and at `pointerX = 250` the
strict drag condition fails and `value` is left unchanged, whatever it was. -/
theorem c3_slider_value_derivation (v : ℚ) :
    (sliderRender (createSlider 0 100 v 50 150 200 10) ⟨150, 155, true⟩).2.value
        = 50 ∧
      (sliderRender (createSlider 0 100 v 50 150 200 10) ⟨50, 155, true⟩).2.value
        = v ∧
      (sliderRender (createSlider 0 100 v 50 150 200 10) ⟨250, 155, true⟩).2.value
        = v := by
  refine ⟨?_, ?_, ?_⟩
  · have hhit : sliderHit (createSlider 0 100 v 50 150 200 10) ⟨150, 155, true⟩
        = true := by
      norm_num [sliderHit, createSlider]
    rw [sliderRender_snd, hhit]
    norm_num [createSlider]
  · have hmiss : sliderHit (createSlider 0 100 v 50 150 200 10) ⟨50, 155, true⟩
        = false := by
      norm_num [sliderHit, createSlider]
    rw [sliderRender_snd, hmiss]
    norm_num [createSlider]
  · have hmiss : sliderHit (createSlider 0 100 v 50 150 200 10) ⟨250, 155, true⟩
        = false := by
      norm_num [sliderHit, createSlider]
    rw [sliderRender_snd, hmiss]
    norm_num [createSlider]

/-- C4 (counterexample): a button with a callback, hovered at `(5, 5)` with
the mouse held down for two consecutive ticks of one press-cycle (no
mouse-up in between), fires `onClick` twice — not at most once. -/
theorem c4_fires_twice_in_one_press :
    buttonClicksOverTicks ⟨"b", 0, 0, 10, 10, some ()⟩
      [⟨5, 5, true⟩, ⟨5, 5, true⟩] = 2 := by
  norm_num [buttonClicksOverTicks, buttonRender, buttonIsHovered, List.filter]

/-- C4 (amended): the click branch has no per-press latch: `onClick` fires
on EVERY render tick on which the button is hovered with the mouse down, so
`n` consecutive such ticks in one press-cycle fire it `n` times. -/
theorem c4_fires_every_qualifying_tick (b : Button) (ps : PointerState)
    (n : Nat) (honc : b.onClick.isSome = true)
    (hhov : buttonIsHovered b ps = true) (hdown : ps.isMouseClicked = true) :
    buttonClicksOverTicks b (List.replicate n ps) = n := by
  have hfire : (buttonRender b ps).2 = true := by
    simp [buttonRender, hhov, hdown, honc]
  induction n with
  | zero => rfl
  | succ k ih =>
      simp only [buttonClicksOverTicks] at ih ⊢
      simp [List.replicate_succ, List.filter_cons, hfire, ih]

/-- C4 (witness): three hovered held-down ticks fire three clicks. -/
theorem c4_fires_every_qualifying_tick_witness :
    buttonClicksOverTicks ⟨"b", 0, 0, 10, 10, some ()⟩
      (List.replicate 3 ⟨5, 5, true⟩) = 3 :=
  c4_fires_every_qualifying_tick ⟨"b", 0, 0, 10, 10, some ()⟩ ⟨5, 5, true⟩ 3
    rfl (by norm_num [buttonIsHovered]) rfl

/-- C7: the drag update is a fixed point: rendering a slider twice against
the same pointer state leaves `value` where the first render put it — the
overwrite depends only on the pointer and the immutable bounds, never on
the previous `value`. -/
theorem c7_drag_update_fixed_point (s : Slider) (ps : PointerState) :
    (sliderRender (sliderRender s ps).2 ps).2.value =
      (sliderRender s ps).2.value := by
  cases h : sliderHit s ps with
  | false =>
      have h1 : (sliderRender s ps).2 = s := by
        rw [sliderRender_snd, h]
        simp
      rw [h1, h1]
  | true =>
      have h1 : (sliderRender s ps).2 =
          Slider.mk s.min s.max
            (s.min + ((ps.mouseX - s.x) / s.width) * (s.max - s.min))
            s.x s.y s.width s.height := by
        rw [sliderRender_snd, h]
        simp
      rw [h1, sliderRender_snd, sliderHit_update s, h]
      simp

/-- C8: a button constructed without an `onClick` callback never fires the
click branch: the `&& onClick` guard makes it a no-op on every one of any
number of render ticks, whatever the pointer does. -/
theorem c8_missing_callback_is_noop (b : Button) (hnone : b.onClick = none)
    (ticks : List PointerState) :
    buttonClicksOverTicks b ticks = 0 := by
  have hfire : ∀ ps, (buttonRender b ps).2 = false := fun ps => by
    simp [buttonRender, hnone]
  induction ticks with
  | nil => rfl
  | cons ps rest ih =>
      simp only [buttonClicksOverTicks] at ih ⊢
      simp [List.filter_cons, hfire ps, ih]

/-- C8 (witness): a callback-free button over three ticks, hovered and held
down on two of them, fires nothing. -/
theorem c8_missing_callback_is_noop_witness :
    buttonClicksOverTicks ⟨"b", 0, 0, 10, 10, none⟩
      [⟨5, 5, true⟩, ⟨5, 5, true⟩, ⟨-1, -1, false⟩] = 0 :=
  c8_missing_callback_is_noop ⟨"b", 0, 0, 10, 10, none⟩ rfl
    [⟨5, 5, true⟩, ⟨5, 5, true⟩, ⟨-1, -1, false⟩]

/-- C9: whenever the drag condition holds for a slider with `max > min` and
`width > 0`, the overwritten `value` lands strictly between `min` and `max`:
the condition forces `x < mouseX < x + width`, so the ratio lies in (0, 1). -/
theorem c9_drag_keeps_value_inside_range (s : Slider) (ps : PointerState)
    (hrange : s.min < s.max) (hw : 0 < s.width)
    (hhit : sliderHit s ps = true) :
    s.min < (sliderRender s ps).2.value ∧
      (sliderRender s ps).2.value < s.max := by
  have hx : s.x < ps.mouseX ∧ ps.mouseX < s.x + s.width := by
    simp only [sliderHit, Bool.and_eq_true, decide_eq_true_eq] at hhit
    exact ⟨hhit.1.1.1.1, hhit.1.1.1.2⟩
  have hval : (sliderRender s ps).2.value =
      s.min + ((ps.mouseX - s.x) / s.width) * (s.max - s.min) := by
    rw [sliderRender_snd, hhit]
    simp
  rw [hval]
  have ht0 : 0 < (ps.mouseX - s.x) / s.width :=
    div_pos (by linarith [hx.1]) hw
  have ht1 : (ps.mouseX - s.x) / s.width < 1 :=
    (div_lt_one hw).mpr (by linarith [hx.2])
  have hd : (0 : ℚ) < s.max - s.min := by linarith
  have h01 : 0 < (ps.mouseX - s.x) / s.width * (s.max - s.min) :=
    mul_pos ht0 hd
  have h02 : (ps.mouseX - s.x) / s.width * (s.max - s.min) < s.max - s.min :=
    (mul_lt_iff_lt_one_left hd).mpr ht1
  exact ⟨by linarith, by linarith⟩

/-- C9 (witness): the spec slider dragged at `pointerX = 150` lands at 50,
strictly between 0 and 100. -/
theorem c9_drag_keeps_value_inside_range_witness :
    (createSlider 0 100 50 50 150 200 10).min <
        (sliderRender (createSlider 0 100 50 50 150 200 10)
          ⟨150, 155, true⟩).2.value ∧
      (sliderRender (createSlider 0 100 50 50 150 200 10)
          ⟨150, 155, true⟩).2.value <
        (createSlider 0 100 50 50 150 200 10).max :=
  c9_drag_keeps_value_inside_range (createSlider 0 100 50 50 150 200 10)
    ⟨150, 155, true⟩ (by norm_num [createSlider]) (by norm_num [createSlider])
    (by norm_num [sliderHit, createSlider])

/-- C10 (counterexample): a `highLevelButton` of size 150×50 rendered at
position (100, 200) with the pointer away draws its rectangle at the inner
button's construction origin `(0, 0)` and its label at `(10, 25)` — NOT at
the padding-shifted `(5, 5)` the claim describes: `createButton`'s
`render(ctx)` discards the origin `(5, 5)` that the internal `flexRow`
passes, so the padding of 5 has no effect at all. -/
theorem c10_inner_button_drawn_at_origin :
    (hlButtonRender (highLevelButton "b" 150 50 (some ())) 100 200
        ⟨0, 0, false⟩).1 =
      [DrawOp.rect 0 0 150 50 "#333",
       DrawOp.text "b" 10 25 "16px Arial" "#fff"] ∧
    DrawOp.rect (0 : ℚ) 0 150 50 "#333" ≠ DrawOp.rect 5 5 150 50 "#333" := by
  constructor
  · norm_num [hlButtonRender, highLevelButton, buttonRenderAt, buttonRender,
      buttonIsHovered]
  · intro hcontra
    rw [DrawOp.rect.injEq] at hcontra
    norm_num at hcontra

/-- C10 (amended): `highLevelButton`'s render ignores its `x, y` arguments
entirely, and because `createButton`'s `render(ctx)` also discards the
origin passed by the internal `flexRow`, its full behavior — drawing and
click dispatch — equals that of the inner button at its fixed construction
coordinates `(0, 0)` exactly, with no padding offset: layout containers
have no effect on where a `highLevelButton` appears, and stacked ones all
occupy the same place. -/
theorem c10_render_position_independent (hb : HLButton) (x1 y1 x2 y2 : ℚ)
    (ps : PointerState) :
    hlButtonRender hb x1 y1 ps = hlButtonRender hb x2 y2 ps ∧
    hlButtonRender hb x1 y1 ps =
      buttonRender ⟨hb.label, 0, 0, hb.width, hb.height, hb.onClick⟩ ps :=
  ⟨rfl, rfl⟩
